import Mathlib

/-!
Shallow embedding of `src/dashboard.py` (electoral dashboard for RJ).

Strings are modelled as lists of Unicode code points (`Str`), spreadsheet
cells as `Cell` (a string, a number, or a missing value / NaN).  The
pandas pipeline of the script is embedded as total Lean functions:
`normalize_text`, `carregar_dados_projecao`, `carregar_geojson`, the two
derived growth columns of lines 57-58, the aggregate metrics of lines
67-68, the map/table filters and the `nlargest`/`nsmallest` rankings.
-/

/-- A Python string, as its list of Unicode code points. -/
abbrev Str := List Nat

/-- Code points of a Lean string literal (used to write concrete inputs). -/
def codePoints (s : String) : Str := s.data.map Char.toNat

/-- A spreadsheet cell as pandas sees it: a string, a number, or NaN. -/
inductive Cell where
  | str (s : Str)
  | num (n : Int)
  | blank
  deriving DecidableEq, Repr

/-- NFKD decomposition of one code point, restricted to the accented Latin
letters that occur in the data (Portuguese municipality names); every other
code point is its own decomposition.  Models the unicodedata NFKD
normalization character by character. -/
def nfkdChar (c : Nat) : List Nat :=
  if c = 225 then [97, 769]        -- a acute
  else if c = 226 then [97, 770]   -- a circumflex
  else if c = 227 then [97, 771]   -- a tilde
  else if c = 231 then [99, 807]   -- c cedilla
  else if c = 233 then [101, 769]  -- e acute
  else if c = 234 then [101, 770]  -- e circumflex
  else if c = 237 then [105, 769]  -- i acute
  else if c = 243 then [111, 769]  -- o acute
  else if c = 244 then [111, 770]  -- o circumflex
  else if c = 245 then [111, 771]  -- o tilde
  else if c = 250 then [117, 769]  -- u acute
  else [c]

/-- ASCII uppercasing of one code point (`.upper()` on an ASCII string). -/
def upperChar (c : Nat) : Nat :=
  if 97 ≤ c ∧ c ≤ 122 then c - 32 else c

/-- Models line 27: NFKD-normalize, encode as ASCII ignoring what does not
fit, decode, uppercase — decompose, drop non-ASCII code points, uppercase. -/
def normalizeStr (s : Str) : Str :=
  ((s.flatMap nfkdChar).filter (fun c => c < 128)).map upperChar

/-- The function normalize_text of dashboard.py lines 25-27: non-strings
map to the empty string. -/
def normalize_text (c : Cell) : Str :=
  match c with
  | .str s => normalizeStr s
  | _ => []

/-- One decimal digit, or `none`. -/
def digitVal (c : Nat) : Option Nat :=
  if 48 ≤ c ∧ c ≤ 57 then some (c - 48) else none

/-- Parse a non-empty all-digit string as a natural number. -/
def parseNat? (s : Str) : Option Nat :=
  match s with
  | [] => none
  | _ =>
    s.foldl (fun acc c =>
      match acc, digitVal c with
      | some a, some d => some (a * 10 + d)
      | _, _ => none) (some 0)

/-- Parse an optionally negated integer literal. -/
def parseInt? (s : Str) : Option Int :=
  match s with
  | 45 :: rest => (parseNat? rest).map (fun n => -(n : Int))
  | _ => (parseNat? s).map (fun n => (n : Int))

/-- Models pd.to_numeric with errors set to coerce, then fillna(0), on one
cell: numbers pass through, numeric strings parse, everything else (NaN,
malformed strings) becomes 0 — never an exception. -/
def toNumericFill0 (c : Cell) : Int :=
  match c with
  | .num n => n
  | .str s => (parseInt? s).getD 0
  | .blank => 0

/-- Models line 38, fillna with the empty string then astype(str), on one
cell of the Cabo_Eleitoral column. -/
def fillnaStr (c : Cell) : Str :=
  match c with
  | .str s => s
  | .num n => codePoints (toString n)
  | .blank => []

/-- A raw spreadsheet row of `base_de_dados_eleitoral.xlsx`. -/
structure RawRow where
  Municipio : Cell
  Votos_2022 : Cell
  Votos_2026 : Cell
  Cabo_Eleitoral : Cell
  deriving DecidableEq, Repr

/-- A row after `carregar_dados_projecao` (lines 35-39): vote columns
coerced to numbers, agent column to a string, join key derived. -/
structure LoadedRow where
  Municipio : Cell
  Votos_2022 : Int
  Votos_2026 : Int
  Cabo_Eleitoral : Str
  Municipio_ID : Str
  deriving DecidableEq, Repr

/-- The per-row body of `carregar_dados_projecao` (lines 36-39). -/
def loadRow (r : RawRow) : LoadedRow :=
  { Municipio := r.Municipio
    Votos_2022 := toNumericFill0 r.Votos_2022
    Votos_2026 := toNumericFill0 r.Votos_2026
    Cabo_Eleitoral := fillnaStr r.Cabo_Eleitoral
    Municipio_ID := normalize_text r.Municipio }

/-- Fatal error message of line 33, quotes escaped. -/
def arquivoErrMsg : Str :=
  codePoints "Arquivo \x27base_de_dados_eleitoral.xlsx\x27 não encontrado! Execute \x27gerar_simulacao.py\x27 primeiro."

/-- The loader carregar_dados_projecao (lines 29-40): if the spreadsheet file does not
exist, `st.error` + `st.stop` halt the script (modelled as `Except.error`
carrying the user-visible message); otherwise every row is loaded. -/
def carregar_dados_projecao (fileExists : Bool) (contents : List RawRow) :
    Except Str (List LoadedRow) :=
  if !fileExists then
    .error arquivoErrMsg
  else
    .ok (contents.map loadRow)

/-- A feature of the fetched GeoJSON: `properties.name`. -/
structure Feature where
  name : Str
  deriving DecidableEq, Repr

/-- A feature after annotation: `properties.id` set on line 48. -/
structure GeoFeature where
  name : Str
  id : Str
  deriving DecidableEq, Repr

/-- Line 48: the feature id under properties is set to normalize_text of
the feature name under properties. -/
def annotateFeature (f : Feature) : GeoFeature :=
  { name := f.name, id := normalize_text (.str f.name) }

/-- The resolver carregar_geojson (lines 42-52): the outcome of the network fetch and
parse is the argument; any failure is caught and `None` is returned. -/
def carregar_geojson (fetch : Except Str (List Feature)) : Option (List GeoFeature) :=
  match fetch with
  | .ok fs => some (fs.map annotateFeature)
  | .error _ => none

/-- A dataframe row after the derived columns of lines 57-58 are added. -/
structure Row where
  Municipio : Cell
  Votos_2022 : Int
  Votos_2026 : Int
  Cabo_Eleitoral : Str
  Municipio_ID : Str
  Crescimento_Votos : Int
  Crescimento_Percentual : Rat
  deriving DecidableEq, Repr

/-- Lines 57-58: the derived column Crescimento_Votos is Votos_2026 minus
Votos_2022 cast to int, and Crescimento_Percentual is Crescimento_Votos
divided by Votos_2022 with 0 replaced by 1, times 100. -/
def addDerived (r : LoadedRow) : Row :=
  { Municipio := r.Municipio
    Votos_2022 := r.Votos_2022
    Votos_2026 := r.Votos_2026
    Cabo_Eleitoral := r.Cabo_Eleitoral
    Municipio_ID := r.Municipio_ID
    Crescimento_Votos := r.Votos_2026 - r.Votos_2022
    Crescimento_Percentual :=
      ((r.Votos_2026 - r.Votos_2022 : Int) : Rat) /
        (if r.Votos_2022 = 0 then (1 : Rat) else ((r.Votos_2022 : Int) : Rat)) * 100 }

/-- The dataframe the page works with: loaded rows plus derived columns. -/
def processar (contents : List RawRow) : List Row :=
  (contents.map loadRow).map addDerived

/-- Line 67: the sum of the Votos_2022 column. -/
def total_votos_2022 (df : List Row) : Int :=
  (df.map Row.Votos_2022).sum

/-- Line 67: the sum of the Votos_2026 column. -/
def total_votos_2026 (df : List Row) : Int :=
  (df.map Row.Votos_2026).sum

/-- Line 68: `total_votos_2026 - total_votos_2022`. -/
def crescimento_consolidado (df : List Row) : Int :=
  total_votos_2026 df - total_votos_2022 df

/-- Line 68: `(total_votos_2026 - total_votos_2022) / total_votos_2022 * 100`.
The division is unguarded; a zero divisor yields no finite number and is
modelled as `none`. -/
def crescimento_percentual_consolidado (df : List Row) : Option Rat :=
  if ((total_votos_2022 df : Int) : Rat) = 0 then none
  else some (((total_votos_2026 df - total_votos_2022 df : Int) : Rat) /
    ((total_votos_2022 df : Int) : Rat) * 100)

/-- Lines 89 and 135: keep rows whose `Cabo_Eleitoral` is non-empty when the
checkbox is ticked (after the fillna of loading, the notna conjunct is
always true). -/
def filtrarCabos (checked : Bool) (df : List Row) : List Row :=
  if checked then df.filter (fun r => r.Cabo_Eleitoral ≠ []) else df

/-- Descending comparison on `Crescimento_Votos` for `nlargest`. -/
def descR (a b : Nat × Row) : Prop :=
  b.2.Crescimento_Votos ≤ a.2.Crescimento_Votos

/-- Ascending comparison on `Crescimento_Votos` for `nsmallest`. -/
def ascR (a b : Nat × Row) : Prop :=
  a.2.Crescimento_Votos ≤ b.2.Crescimento_Votos

instance : DecidableRel descR := fun _ _ => Int.decLe _ _

instance : DecidableRel ascR := fun _ _ => Int.decLe _ _

instance : IsTotal (Nat × Row) descR := ⟨fun _ _ => Int.le_total _ _⟩

instance : IsTotal (Nat × Row) ascR := ⟨fun _ _ => Int.le_total _ _⟩

instance : IsTrans (Nat × Row) descR := ⟨fun _ _ _ h1 h2 => le_trans h2 h1⟩

instance : IsTrans (Nat × Row) ascR := ⟨fun _ _ _ h1 h2 => le_trans h1 h2⟩

/-- Line 116: nlargest(5) on Crescimento_Votos: stable sort descending
by growth (pandas ties keep the first occurrence), first five, on
index-tagged rows so that which records were selected is visible. -/
def nlargest5 (df : List Row) : List (Nat × Row) :=
  (df.enum.insertionSort descR).take 5

/-- Line 119: nsmallest(5) on Crescimento_Votos: stable sort ascending
by growth, first five. -/
def nsmallest5 (df : List Row) : List (Nat × Row) :=
  (df.enum.insertionSort ascR).take 5

/-- Row indices selected by the top-5-largest table. -/
def top5idx (df : List Row) : List Nat :=
  (nlargest5 df).map Prod.fst

/-- Row indices selected by the top-5-smallest table. -/
def bot5idx (df : List Row) : List Nat :=
  (nsmallest5 df).map Prod.fst

/-- The rendered page, one field per section.  The map section is present
exactly when the GeoJSON loaded (line 91 `if geojson:`); the summary metrics
come from the unfiltered dataframe; the two top-5 tables ignore the filters;
the comparative chart shows both vote columns per municipality; the detail
table honours its own checkbox. -/
structure Views where
  total_2022 : Int
  total_2026 : Int
  cresc_consolidado : Int
  cresc_percentual : Option Rat
  mapa : Option (List GeoFeature × List Row)
  top5_maiores : List (Nat × Row)
  top5_menores : List (Nat × Row)
  grafico : List (Cell × Int × Int)
  tabela : List Row
  deriving DecidableEq, Repr

/-- Lines 60-144: build every section of the page from the dataframe, the
(possibly absent) GeoJSON and the two checkbox states. -/
def montarViews (df : List Row) (geojson : Option (List GeoFeature))
    (filtro_mapa filtro_tabela : Bool) : Views :=
  { total_2022 := total_votos_2022 df
    total_2026 := total_votos_2026 df
    cresc_consolidado := crescimento_consolidado df
    cresc_percentual := crescimento_percentual_consolidado df
    mapa := geojson.map (fun g => (g, filtrarCabos filtro_mapa df))
    top5_maiores := nlargest5 df
    top5_menores := nsmallest5 df
    grafico := df.map (fun r => (r.Municipio, r.Votos_2022, r.Votos_2026))
    tabela := filtrarCabos filtro_tabela df }

/-- The whole script run: load the spreadsheet (halting on a missing file),
load the GeoJSON (tolerating failure), derive the growth columns, render. -/
def dashboard (fileExists : Bool) (contents : List RawRow)
    (fetch : Except Str (List Feature)) (filtro_mapa filtro_tabela : Bool) :
    Except Str Views :=
  match carregar_dados_projecao fileExists contents with
  | .error e => .error e
  | .ok base => .ok (montarViews (base.map addDerived) (carregar_geojson fetch)
      filtro_mapa filtro_tabela)

/-- Rounding to two decimal places, as the `{:.2f}` display format does
(up to the half-way tie rule, which no value below is subject to). -/
def round2 (q : Rat) : Rat := ((⌊q * 100 + 1 / 2⌋ : Int) : Rat) / 100

/-- First row of the spec scenario. -/
def exNiteroi : RawRow :=
  { Municipio := .str (codePoints "Niterói")
    Votos_2022 := .num 1000
    Votos_2026 := .num 1200
    Cabo_Eleitoral := .str (codePoints "Agent A") }

/-- Second row of the spec scenario. -/
def exMarica : RawRow :=
  { Municipio := .str (codePoints "Maricá")
    Votos_2022 := .num 500
    Votos_2026 := .num 400
    Cabo_Eleitoral := .str [] }

/-- The two-row input of the spec scenario. -/
def exCenario : List RawRow := [exNiteroi, exMarica]

/-- A code point below 128 has no NFKD decomposition. -/
lemma nfkdChar_of_ascii {c : Nat} (h : c < 128) : nfkdChar c = [c] := by
  have ha : c ≠ 225 := by omega
  have hb : c ≠ 226 := by omega
  have hc : c ≠ 227 := by omega
  have hd : c ≠ 231 := by omega
  have he : c ≠ 233 := by omega
  have hf : c ≠ 234 := by omega
  have hg : c ≠ 237 := by omega
  have hi : c ≠ 243 := by omega
  have hj : c ≠ 244 := by omega
  have hk : c ≠ 245 := by omega
  have hl : c ≠ 250 := by omega
  simp [nfkdChar, ha, hb, hc, hd, he, hf, hg, hi, hj, hk, hl]

/-- ASCII uppercasing is idempotent. -/
lemma upperChar_idem (c : Nat) : upperChar (upperChar c) = upperChar c := by
  unfold upperChar
  split_ifs <;> omega

/-- ASCII uppercasing keeps code points below 128. -/
lemma upperChar_lt {c : Nat} (h : c < 128) : upperChar c < 128 := by
  unfold upperChar
  split_ifs <;> omega

/-- Every code point produced by `normalizeStr` is ASCII and fixed by
uppercasing. -/
lemma mem_normalizeStr {c : Nat} {s : Str} (h : c ∈ normalizeStr s) :
    c < 128 ∧ upperChar c = c := by
  unfold normalizeStr at h
  obtain ⟨b, hb, rfl⟩ := List.mem_map.mp h
  have hlt : b < 128 := by simpa using (List.mem_filter.mp hb).2
  exact ⟨upperChar_lt hlt, upperChar_idem b⟩

/-- Evaluating normalizeStr through a cons cell whose head is ASCII. -/
lemma normalizeStr_cons_ascii {a : Nat} (t : Str) (h : a < 128) :
    normalizeStr (a :: t) = upperChar a :: normalizeStr t := by
  simp [normalizeStr, nfkdChar_of_ascii h, h]

/-- The function normalizeStr fixes any string all of whose code points
are ASCII and uppercase-stable. -/
lemma normalizeStr_of_fixed : ∀ {t : Str},
    (∀ c ∈ t, c < 128 ∧ upperChar c = c) → normalizeStr t = t := by
  intro t
  induction t with
  | nil => intro _; rfl
  | cons a t ih =>
    intro h
    have ha := h a (List.mem_cons_self a t)
    rw [normalizeStr_cons_ascii t ha.1, ha.2,
      ih (fun c hc => h c (List.mem_cons_of_mem a hc))]

/-- C10: the join-key normalization is total and idempotent: every non-string
cell maps to the empty string, and normalizing twice equals normalizing
once, both on raw strings and at the cell level. -/
theorem C10_normalize_total_idempotent :
    (∀ c : Cell, (∀ s : Str, c ≠ Cell.str s) → normalize_text c = []) ∧
    (∀ s : Str, normalizeStr (normalizeStr s) = normalizeStr s) ∧
    (∀ s : Str, normalize_text (Cell.str (normalize_text (Cell.str s))) =
      normalize_text (Cell.str s)) := by
  refine ⟨?_, ?_, ?_⟩
  · intro c h
    cases c with
    | str s => exact absurd rfl (h s)
    | num n => rfl
    | blank => rfl
  · intro s
    exact normalizeStr_of_fixed (fun c hc => mem_normalizeStr hc)
  · intro s
    exact normalizeStr_of_fixed (fun c hc => mem_normalizeStr hc)

/-- Witness for C10 at the concrete non-string cells. -/
theorem C10_normalize_total_idempotent_witness :
    normalize_text (Cell.num 3) = [] ∧ normalize_text Cell.blank = [] :=
  ⟨C10_normalize_total_idempotent.1 (Cell.num 3) (fun _ h => Cell.noConfusion h),
   C10_normalize_total_idempotent.1 Cell.blank (fun _ h => Cell.noConfusion h)⟩

/-- C1: every record of the loaded dataframe has
`Crescimento_Votos = Votos_2026 - Votos_2022`, as exact integer
arithmetic on the coerced vote columns. -/
theorem C1_growth_absolute :
    ∀ (contents : List RawRow) (r : Row), r ∈ processar contents →
      r.Crescimento_Votos = r.Votos_2026 - r.Votos_2022 := by
  intro contents r hr
  simp only [processar] at hr
  obtain ⟨l, -, rfl⟩ := List.mem_map.mp hr
  rfl

/-- Witness for C1 at the Niterói record of the spec scenario. -/
theorem C1_growth_absolute_witness :
    addDerived (loadRow exNiteroi) ∈ processar exCenario ∧
      (addDerived (loadRow exNiteroi)).Crescimento_Votos =
        (addDerived (loadRow exNiteroi)).Votos_2026 -
          (addDerived (loadRow exNiteroi)).Votos_2022 := by
  have hm : addDerived (loadRow exNiteroi) ∈ processar exCenario := by
    show addDerived (loadRow exNiteroi) ∈
      [addDerived (loadRow exNiteroi), addDerived (loadRow exMarica)]
    exact List.mem_cons_self _ _
  exact ⟨hm, C1_growth_absolute exCenario _ hm⟩

/-- A record whose first-cycle votes are 0 and whose growth is 5. -/
def exC2 : RawRow :=
  { Municipio := .str []
    Votos_2022 := .num 0
    Votos_2026 := .num 5
    Cabo_Eleitoral := .blank }

/-- C2 as stated is false: with `votes_cycle1 = 0` and `growth_absolute = 5`
the derived `Crescimento_Percentual` is 500, not 5 — the code multiplies the
substituted-denominator quotient by 100, so the column is not numerically
equal to the absolute growth. -/
theorem C2_growth_percent_counterexample :
    (addDerived (loadRow exC2)).Votos_2022 = 0 ∧
    (addDerived (loadRow exC2)).Crescimento_Votos = 5 ∧
    (addDerived (loadRow exC2)).Crescimento_Percentual = 500 ∧
    (addDerived (loadRow exC2)).Crescimento_Percentual ≠
      (((addDerived (loadRow exC2)).Crescimento_Votos : Int) : Rat) := by
  refine ⟨rfl, rfl, ?_, ?_⟩ <;>
    norm_num [addDerived, loadRow, exC2, toNumericFill0]

/-- C2 amended: for every loaded record with `votes_cycle1 = 0`, the derived
`growth_percent` equals `growth_absolute / 1 * 100`, i.e. one hundred times
the absolute growth (the zero denominator is replaced by 1). -/
theorem C2_growth_percent_amended :
    ∀ (contents : List RawRow) (r : Row), r ∈ processar contents →
      r.Votos_2022 = 0 →
      r.Crescimento_Percentual = ((r.Crescimento_Votos : Int) : Rat) / 1 * 100 := by
  intro contents r hr h0
  simp only [processar] at hr
  obtain ⟨l, -, rfl⟩ := List.mem_map.mp hr
  have h0' : l.Votos_2022 = 0 := h0
  simp [addDerived, h0']

/-- Witness for the amended C2 at the concrete zero-denominator record. -/
theorem C2_growth_percent_amended_witness :
    addDerived (loadRow exC2) ∈ processar [exC2] ∧
    (addDerived (loadRow exC2)).Votos_2022 = 0 ∧
    (addDerived (loadRow exC2)).Crescimento_Percentual =
      (((addDerived (loadRow exC2)).Crescimento_Votos : Int) : Rat) / 1 * 100 := by
  have hm : addDerived (loadRow exC2) ∈ processar [exC2] := by
    show addDerived (loadRow exC2) ∈ [addDerived (loadRow exC2)]
    exact List.mem_cons_self _ _
  exact ⟨hm, rfl, C2_growth_percent_amended [exC2] _ hm rfl⟩

/-- C9: the consolidated percentage growth divides by the raw total of
`Votos_2022` with no zero guard: whenever that total is 0 the division has a
zero divisor and no finite percentage is produced — unlike the per-record
column, which substitutes 1. -/
theorem C9_consolidated_zero_denominator :
    ∀ df : List Row, total_votos_2022 df = 0 →
      crescimento_percentual_consolidado df = none ∧
      crescimento_percentual_consolidado df ≠
        some (((crescimento_consolidado df : Int) : Rat) / 1 * 100) := by
  intro df h
  have hz : crescimento_percentual_consolidado df = none := by
    unfold crescimento_percentual_consolidado
    rw [if_pos (by rw [h]; norm_num)]
  exact ⟨hz, by rw [hz]; exact fun hc => Option.noConfusion hc⟩

/-- Witness for C9 on a one-record dataframe whose 2022 total is zero. -/
theorem C9_consolidated_zero_denominator_witness :
    total_votos_2022 (processar [exC2]) = 0 ∧
    crescimento_percentual_consolidado (processar [exC2]) = none :=
  ⟨by decide, (C9_consolidated_zero_denominator (processar [exC2]) (by decide)).1⟩

/-- C4: with the spreadsheet file missing, the whole run halts with the
user-visible error before any view is built; the message names the missing
file and the remediation step (running the generator script). -/
theorem C4_missing_file :
    ∀ (contents : List RawRow) (fetch : Except Str (List Feature)) (fm ft : Bool),
      dashboard false contents fetch fm ft = Except.error arquivoErrMsg ∧
      (∃ p s : Str, arquivoErrMsg = p ++ codePoints "base_de_dados_eleitoral.xlsx" ++ s) ∧
      (∃ p s : Str, arquivoErrMsg = p ++ codePoints "gerar_simulacao.py" ++ s) := by
  intro contents fetch fm ft
  refine ⟨rfl, ?_, ?_⟩
  · exact ⟨codePoints "Arquivo \x27",
      codePoints "\x27 não encontrado! Execute \x27gerar_simulacao.py\x27 primeiro.",
      by decide⟩
  · exact ⟨codePoints "Arquivo \x27base_de_dados_eleitoral.xlsx\x27 não encontrado! Execute \x27",
      codePoints "\x27 primeiro.", by decide⟩

/-- C5: when the GeoJSON fetch fails the resolver returns `none`, the map
section alone is omitted, and every other section of the page is identical
to the same run with a successful fetch. -/
theorem C5_geo_failure :
    ∀ (contents : List RawRow) (e : Str) (g : List Feature) (fm ft : Bool),
      carregar_geojson (Except.error e) = none ∧
      ∃ vd vo : Views,
        dashboard true contents (Except.error e) fm ft = Except.ok vd ∧
        dashboard true contents (Except.ok g) fm ft = Except.ok vo ∧
        vd.mapa = none ∧ vo.mapa ≠ none ∧
        vd.total_2022 = vo.total_2022 ∧
        vd.total_2026 = vo.total_2026 ∧
        vd.cresc_consolidado = vo.cresc_consolidado ∧
        vd.cresc_percentual = vo.cresc_percentual ∧
        vd.top5_maiores = vo.top5_maiores ∧
        vd.top5_menores = vo.top5_menores ∧
        vd.grafico = vo.grafico ∧
        vd.tabela = vo.tabela := by
  intro contents e g fm ft
  refine ⟨rfl, montarViews (processar contents) none fm ft,
    montarViews (processar contents) (some (g.map annotateFeature)) fm ft,
    rfl, rfl, rfl, fun h => Option.noConfusion h,
    rfl, rfl, rfl, rfl, rfl, rfl, rfl, rfl⟩

/-- C7: the very same normalization function produces the dataframe join key
(line 39) and the GeoJSON feature id (line 48), so equal names yield equal
keys; concretely both spellings of São Gonçalo normalize to "SAO GONCALO". -/
theorem C7_join_key :
    (∀ (r : RawRow) (f : Feature), r.Municipio = Cell.str f.name →
      (loadRow r).Municipio_ID = (annotateFeature f).id) ∧
    normalize_text (Cell.str (codePoints "São Gonçalo")) = codePoints "SAO GONCALO" ∧
    normalize_text (Cell.str (codePoints "SAO GONCALO")) = codePoints "SAO GONCALO" := by
  refine ⟨?_, by decide, by decide⟩
  intro r f h
  show normalize_text r.Municipio = normalize_text (Cell.str f.name)
  rw [h]

/-- A raw row carrying the accented spelling of São Gonçalo. -/
def exSG : RawRow :=
  { Municipio := .str (codePoints "São Gonçalo")
    Votos_2022 := .num 0
    Votos_2026 := .num 0
    Cabo_Eleitoral := .blank }

/-- Witness for C7: the loaded row key equals the annotated feature id for
the same municipality name. -/
theorem C7_join_key_witness :
    exSG.Municipio = Cell.str (Feature.mk (codePoints "São Gonçalo")).name ∧
    (loadRow exSG).Municipio_ID =
      (annotateFeature (Feature.mk (codePoints "São Gonçalo"))).id :=
  ⟨rfl, C7_join_key.1 exSG (Feature.mk (codePoints "São Gonçalo")) rfl⟩

/-- C8: numeric coercion is total — any string that does not parse as a
number (and any NaN cell) coerces to 0 — and loading an existing file never
fails, whatever the cells contain. -/
theorem C8_numeric_coercion :
    ∀ (contents : List RawRow) (s : Str), parseInt? s = none →
      toNumericFill0 (Cell.str s) = 0 ∧
      toNumericFill0 Cell.blank = 0 ∧
      ∃ rows, carregar_dados_projecao true contents = Except.ok rows := by
  intro contents s h
  refine ⟨?_, rfl, ⟨contents.map loadRow, rfl⟩⟩
  simp [toNumericFill0, h]

/-- Witness for C8 at the empty string (the malformed cell of the spec
scenario). -/
theorem C8_numeric_coercion_witness :
    parseInt? [] = none ∧
    (toNumericFill0 (Cell.str []) = 0 ∧ toNumericFill0 Cell.blank = 0 ∧
      ∃ rows, carregar_dados_projecao true exCenario = Except.ok rows) :=
  ⟨rfl, C8_numeric_coercion exCenario [] rfl⟩

/-- C3: on the two-row scenario the totals are 1500 and 1600, the
consolidated growth is 100 (6.67% after two-decimal rounding), the per-row
absolute growths are 200 and -100 with percentages 20.00% and -20.00%, and
the field-agent filter keeps exactly the Niterói record. -/
theorem C3_scenario :
    total_votos_2022 (processar exCenario) = 1500 ∧
    total_votos_2026 (processar exCenario) = 1600 ∧
    crescimento_consolidado (processar exCenario) = 100 ∧
    (∃ q : Rat, crescimento_percentual_consolidado (processar exCenario) = some q ∧
      round2 q = 667 / 100) ∧
    (processar exCenario).map Row.Crescimento_Votos = [200, -100] ∧
    (processar exCenario).map Row.Crescimento_Percentual = [20, -20] ∧
    round2 20 = 20 ∧ round2 (-20) = -20 ∧
    (filtrarCabos true (processar exCenario)).map Row.Municipio =
      [Cell.str (codePoints "Niterói")] := by
  refine ⟨by decide, by decide, by decide, ⟨20 / 3, ?_, ?_⟩, by decide, ?_, ?_, ?_, by rfl⟩
  · norm_num [crescimento_percentual_consolidado, total_votos_2022, total_votos_2026,
      processar, exCenario, exNiteroi, exMarica, loadRow, addDerived, toNumericFill0]
  · have h : ⌊(20 / 3 : Rat) * 100 + 1 / 2⌋ = 667 := by
      rw [Int.floor_eq_iff]
      norm_num
    rw [round2, h]
    norm_num
  · norm_num [processar, exCenario, exNiteroi, exMarica, loadRow, addDerived, toNumericFill0]
  · have h : ⌊(20 : Rat) * 100 + 1 / 2⌋ = 2000 := by
      rw [Int.floor_eq_iff]
      norm_num
    rw [round2, h]
    norm_num
  · have h : ⌊(-20 : Rat) * 100 + 1 / 2⌋ = -2000 := by
      rw [Int.floor_eq_iff]
      norm_num
    rw [round2, h]
    norm_num

/-- Counting a property of the row component over the index-tagged dataframe
equals counting it over the dataframe. -/
lemma countP_enum_snd (df : List Row) (p : Row → Bool) :
    df.enum.countP (fun y => p y.2) = df.countP p :=
  calc df.enum.countP (fun y => p y.2)
      = (df.enum.map Prod.snd).countP p := (List.countP_map p Prod.snd df.enum).symm
    _ = df.countP p := by rw [List.enum_eq_enumFrom, List.enumFrom_map_snd]

/-- Trichotomy split of a tagged row list by growth compared to a value. -/
lemma three_way_count (l : List (Nat × Row)) (v : Int) :
    l.length =
      l.countP (fun y => decide (v < y.2.Crescimento_Votos)) +
        l.countP (fun y => decide (y.2.Crescimento_Votos < v)) +
        l.countP (fun y => decide (y.2.Crescimento_Votos = v)) := by
  induction l with
  | nil => rfl
  | cons a t ih =>
    rw [List.length_cons, List.countP_cons, List.countP_cons, List.countP_cons]
    simp only [decide_eq_true_eq]
    split_ifs <;> omega

/-- In a duplicate-free list of integers any value occurs at most once. -/
lemma countP_eq_le_one (l : List Int) (h : l.Nodup) (v : Int) :
    l.countP (fun x => decide (x = v)) ≤ 1 := by
  induction l with
  | nil => simp
  | cons a t ih =>
    obtain ⟨ha, ht⟩ := List.nodup_cons.mp h
    rw [List.countP_cons]
    by_cases hav : a = v
    · subst hav
      have hz : t.countP (fun x => decide (x = a)) = 0 :=
        List.countP_eq_zero.mpr (fun x hx => by
          simp only [decide_eq_true_eq]
          rintro rfl
          exact ha hx)
      simp [hz]
    · simp [hav, ih ht]

/-- A record among the five largest has at most four strictly larger growths
in the whole dataframe. -/
lemma countP_gt_nlargest (df : List Row) (x : Nat × Row) (hx : x ∈ nlargest5 df) :
    df.enum.countP
      (fun y => decide (x.2.Crescimento_Votos < y.2.Crescimento_Votos)) ≤ 4 := by
  set p : Nat × Row → Bool :=
    fun y => decide (x.2.Crescimento_Votos < y.2.Crescimento_Votos) with hp
  set d := df.enum.insertionSort descR with hd
  have hx' : x ∈ d.take 5 := hx
  have hsort : List.Pairwise descR d := List.sorted_insertionSort descR df.enum
  have hperm : List.Perm d df.enum := List.perm_insertionSort descR df.enum
  rw [← hperm.countP_eq p]
  have hsplit := List.take_append_drop 5 d
  have hpw : ∀ a ∈ d.take 5, ∀ b ∈ d.drop 5, descR a b := by
    have h2 : List.Pairwise descR (d.take 5 ++ d.drop 5) := by rw [hsplit]; exact hsort
    exact (List.pairwise_append.mp h2).2.2
  have hdrop : (d.drop 5).countP p = 0 :=
    List.countP_eq_zero.mpr (fun b hb => by
      simp only [hp, decide_eq_true_eq]
      exact not_lt.mpr (hpw x hx' b hb))
  have htake : (d.take 5).countP p ≤ 4 := by
    have hlen := List.length_take_le 5 d
    have heq := List.length_eq_countP_add_countP (p := p) (d.take 5)
    have hpos : 0 < (d.take 5).countP (fun a => decide ¬(p a = true)) :=
      List.countP_pos_iff.mpr ⟨x, hx', by simp [hp]⟩
    omega
  have hgoal : d.countP p = (d.take 5).countP p + (d.drop 5).countP p := by
    conv_lhs => rw [← hsplit]
    rw [List.countP_append]
  omega

/-- A record among the five smallest has at most four strictly smaller
growths in the whole dataframe. -/
lemma countP_lt_nsmallest (df : List Row) (x : Nat × Row) (hx : x ∈ nsmallest5 df) :
    df.enum.countP
      (fun y => decide (y.2.Crescimento_Votos < x.2.Crescimento_Votos)) ≤ 4 := by
  set p : Nat × Row → Bool :=
    fun y => decide (y.2.Crescimento_Votos < x.2.Crescimento_Votos) with hp
  set d := df.enum.insertionSort ascR with hd
  have hx' : x ∈ d.take 5 := hx
  have hsort : List.Pairwise ascR d := List.sorted_insertionSort ascR df.enum
  have hperm : List.Perm d df.enum := List.perm_insertionSort ascR df.enum
  rw [← hperm.countP_eq p]
  have hsplit := List.take_append_drop 5 d
  have hpw : ∀ a ∈ d.take 5, ∀ b ∈ d.drop 5, ascR a b := by
    have h2 : List.Pairwise ascR (d.take 5 ++ d.drop 5) := by rw [hsplit]; exact hsort
    exact (List.pairwise_append.mp h2).2.2
  have hdrop : (d.drop 5).countP p = 0 :=
    List.countP_eq_zero.mpr (fun b hb => by
      simp only [hp, decide_eq_true_eq]
      exact not_lt.mpr (hpw x hx' b hb))
  have htake : (d.take 5).countP p ≤ 4 := by
    have hlen := List.length_take_le 5 d
    have heq := List.length_eq_countP_add_countP (p := p) (d.take 5)
    have hpos : 0 < (d.take 5).countP (fun a => decide ¬(p a = true)) :=
      List.countP_pos_iff.mpr ⟨x, hx', by simp [hp]⟩
    omega
  have hgoal : d.countP p = (d.take 5).countP p + (d.drop 5).countP p := by
    conv_lhs => rw [← hsplit]
    rw [List.countP_append]
  omega

/-- Two index-tagged rows of the same dataframe with the same index are the
same tagged row. -/
lemma enum_eq_of_fst_eq {l : List Row} {x y : Nat × Row}
    (hx : x ∈ l.enum) (hy : y ∈ l.enum) (h : x.1 = y.1) : x = y := by
  obtain ⟨i, hi⟩ := List.mem_iff_getElem?.mp hx
  obtain ⟨j, hj⟩ := List.mem_iff_getElem?.mp hy
  rw [List.enum_eq_enumFrom, List.getElem?_enumFrom] at hi hj
  obtain ⟨a, ha, ha'⟩ := Option.map_eq_some'.mp hi
  obtain ⟨b, hb, hb'⟩ := Option.map_eq_some'.mp hj
  have hxi : x.1 = i := by rw [← ha']; simp
  have hyj : y.1 = j := by rw [← hb']; simp
  have hij : i = j := by omega
  subst hij
  rw [← ha', ← hb', Option.some.inj (ha.symm.trans hb)]

/-- One all-zero spreadsheet row (growth 0). -/
def exC6row : RawRow :=
  { Municipio := .str []
    Votos_2022 := .num 0
    Votos_2026 := .num 0
    Cabo_Eleitoral := .blank }

/-- Ten identical rows: ten records, all with growth 0. -/
def exC6 : List RawRow := List.replicate 10 exC6row

/-- C6 as stated is false: with ten records all of growth 0, pandas
`nlargest`/`nsmallest` (ties keep the first occurrences) both select rows
0-4, so the two top-5 selections overlap — record 0 is in both. -/
theorem C6_top5_overlap_counterexample :
    (processar exC6).length = 10 ∧
    0 ∈ top5idx (processar exC6) ∧
    0 ∈ bot5idx (processar exC6) :=
  ⟨by decide, by decide, by decide⟩

/-- C6 amended: for a dataframe of at least ten records whose
`Crescimento_Votos` values are pairwise distinct, the records selected as
top-5 largest and as top-5 smallest are disjoint. -/
theorem C6_top5_disjoint_amended :
    ∀ df : List Row, 10 ≤ df.length →
      (df.map Row.Crescimento_Votos).Nodup →
      ∀ i : Nat, i ∈ top5idx df → i ∉ bot5idx df := by
  intro df hlen hnd i hi hbot
  obtain ⟨x, hx, hxi⟩ := List.mem_map.mp hi
  obtain ⟨y, hy, hyi⟩ := List.mem_map.mp hbot
  have hxe : x ∈ df.enum :=
    (List.perm_insertionSort descR df.enum).subset (List.take_subset 5 _ hx)
  have hye : y ∈ df.enum :=
    (List.perm_insertionSort ascR df.enum).subset (List.take_subset 5 _ hy)
  have hxy : x = y := enum_eq_of_fst_eq hxe hye (hxi.trans hyi.symm)
  subst hxy
  have hgt := countP_gt_nlargest df x hx
  have hlt := countP_lt_nsmallest df x hy
  have heq : df.enum.countP
      (fun y => decide (y.2.Crescimento_Votos = x.2.Crescimento_Votos)) ≤ 1 := by
    rw [countP_enum_snd df (fun row => decide (row.Crescimento_Votos = x.2.Crescimento_Votos))]
    have hm : df.countP (fun row => decide (row.Crescimento_Votos = x.2.Crescimento_Votos)) =
        (df.map Row.Crescimento_Votos).countP
          (fun v => decide (v = x.2.Crescimento_Votos)) := by
      rw [List.countP_map]
      rfl
    rw [hm]
    exact countP_eq_le_one _ hnd _
  have htri := three_way_count df.enum x.2.Crescimento_Votos
  have helen : df.enum.length = df.length := by
    rw [List.enum_eq_enumFrom, List.enumFrom_length]
  omega

/-- Ten rows with growths 0..9 (all distinct). -/
def exC6w : List RawRow :=
  (List.range 10).map (fun k =>
    { Municipio := .str []
      Votos_2022 := .num 0
      Votos_2026 := .num (k : Int)
      Cabo_Eleitoral := .blank })

/-- Witness for the amended C6: on ten records with distinct growths, record
9 (the largest growth) is in the top-5 selection and not in the bottom-5. -/
theorem C6_top5_disjoint_amended_witness :
    10 ≤ (processar exC6w).length ∧
    ((processar exC6w).map Row.Crescimento_Votos).Nodup ∧
    9 ∈ top5idx (processar exC6w) ∧
    9 ∉ bot5idx (processar exC6w) :=
  ⟨by decide, by decide, by decide,
    C6_top5_disjoint_amended (processar exC6w) (by decide) (by decide) 9 (by decide)⟩
